import Mathlib

/-!
Verification development for the teaspoon repository (teaspoon.py / tablespoon.py).

The two Python source files are shallowly embedded as pure Lean functions.
External effects (the filesystem, the mash and rasusa subprocesses) are
modelled by an explicit environment `Env` of predicates and oracles, and the
side effects a run performs are collected as an explicit `Action` trace.
Python machine floats are modelled as exact rationals (the numeric strings
handled by the program are plain decimals); Python exceptions are modelled
with `Except`.
-/

namespace Tsp

/-! ## Basic string machinery (models of Python str operations, on `List Char`) -/

/-- Model of Python `s.startswith(pat)` on character lists: the first argument
is the pattern. -/
def startsWithL : List Char → List Char → Bool
  | [], _ => true
  | _ :: _, [] => false
  | p :: ps, c :: cs => p == c && startsWithL ps cs

/-- Model of Python `pat in s` (substring containment). -/
def containsL (pat : List Char) : List Char → Bool
  | [] => pat.isEmpty
  | c :: cs => startsWithL pat (c :: cs) || containsL pat cs

/-- Model of Python `s.startswith(pat)` on `String`. -/
def startsWithStr (pat s : String) : Bool := startsWithL pat.data s.data

/-- Model of Python `s.endswith(pat)` on `String`. -/
def endsWithStr (pat s : String) : Bool := startsWithL pat.data.reverse s.data.reverse

/-- Model of Python `pat in s` on `String`. -/
def containsStr (pat s : String) : Bool := containsL pat.data s.data

/-- Model of Python `s.split(sep)` for a one-character separator. -/
def splitOnChar (sep : Char) : List Char → List (List Char)
  | [] => [[]]
  | c :: cs =>
    match splitOnChar sep cs with
    | f :: rest => if c == sep then [] :: f :: rest else (c :: f) :: rest
    | [] => if c == sep then [[], []] else [[c]]

/-- Model of Python `s.split(sep, 1)` returning the two halves when the
separator occurs, `none` otherwise (Python returns a one-element list then). -/
def splitOnceL (sep : Char) : List Char → Option (List Char × List Char)
  | [] => none
  | c :: cs =>
    if c == sep then some ([], cs)
    else
      match splitOnceL sep cs with
      | some (a, b) => some (c :: a, b)
      | none => none

/-- Characters treated as whitespace by the model of Python `str.strip()`
(the ASCII whitespace characters; the program only ever strips spaces). -/
def isSpaceC (c : Char) : Bool :=
  c == ' ' || c == '\t' || c == '\n' || c == '\r' || c == '\x0b' || c == '\x0c'

/-- Model of Python `s.strip()`. -/
def stripL (s : List Char) : List Char :=
  ((s.dropWhile isSpaceC).reverse.dropWhile isSpaceC).reverse

/-- ASCII decimal digit test. -/
def isDigitC (c : Char) : Bool := '0' ≤ c && c ≤ '9'

/-- Numeric value of a list of decimal digits (most significant first). -/
def natOfDigits (ds : List Char) : Nat :=
  ds.foldl (fun a c => a * 10 + (c.toNat - 48)) 0

/-- Model of Python `float(s)` restricted to plain decimal literals
`[+-]? digits [. digits]` or `[+-]? . digits`, as an exact rational
(`sign * (intpart + fracpart / 10 ^ fracdigits)`, assembled with `mkRat`
over integer arithmetic so that the kernel can evaluate it).
Exponent, `inf`/`nan` and underscore forms accepted by Python are outside
the model; the program only ever sees plain decimals from mash. -/
def parseDecimal (s : List Char) : Option ℚ :=
  let signed : Int × List Char :=
    match s with
    | '+' :: r => (1, r)
    | '-' :: r => (-1, r)
    | r => (1, r)
  let sign := signed.1
  let t := signed.2
  let intDigits := t.takeWhile isDigitC
  let rest := t.dropWhile isDigitC
  match rest with
  | [] =>
    if intDigits.isEmpty then none
    else some (mkRat (sign * (natOfDigits intDigits : Int)) 1)
  | '.' :: frac =>
    let fracDigits := frac.takeWhile isDigitC
    let rest2 := frac.dropWhile isDigitC
    if rest2.isEmpty = false then none
    else if intDigits.isEmpty && fracDigits.isEmpty then none
    else some (mkRat
      (sign * ((natOfDigits intDigits : Int) * (10 : Int) ^ fracDigits.length +
        (natOfDigits fracDigits : Int)))
      ((10 : Nat) ^ fracDigits.length))
  | _ => none

/-- Model of Python `s.replace("_1.", "_2.")` (all non-overlapping
occurrences, scanning left to right), specialised to this pattern. -/
def rep12 : List Char → List Char
  | '_' :: '1' :: '.' :: rest => '_' :: '2' :: '.' :: rep12 rest
  | c :: rest => c :: rep12 rest
  | [] => []

/-- Model of Python `s.replace("_R1_", "_R2_")` (all non-overlapping
occurrences, scanning left to right), specialised to this pattern. -/
def repR1R2 : List Char → List Char
  | '_' :: 'R' :: '1' :: '_' :: rest => '_' :: 'R' :: '2' :: '_' :: repR1R2 rest
  | c :: rest => c :: repR1R2 rest
  | [] => []

/-- `s.replace("_1.", "_2.")` on `String`. -/
def replace12 (s : String) : String := String.mk (rep12 s.data)

/-- `s.replace("_R1_", "_R2_")` on `String`. -/
def replaceR1R2 (s : String) : String := String.mk (repR1R2 s.data)

/-- Model of `re.sub(r"(.fastq.gz|.fastq)", "." + pad + "xds" + group, s)`
from teaspoon.py. The dots in the pattern are unescaped regex wildcards
(any character except a newline), the alternation prefers the longer
branch at each position, and every non-overlapping occurrence is replaced,
scanning left to right and resuming after each match. -/
def subFastq (pad : List Char) : List Char → List Char
  | c0 :: 'f' :: 'a' :: 's' :: 't' :: 'q' :: c6 :: 'g' :: 'z' :: rest =>
    if c0 == '\n' then
      c0 :: subFastq pad ('f' :: 'a' :: 's' :: 't' :: 'q' :: c6 :: 'g' :: 'z' :: rest)
    else if c6 == '\n' then
      '.' :: (pad ++ ('x' :: 'd' :: 's' ::
        (c0 :: 'f' :: 'a' :: 's' :: 't' :: 'q' :: subFastq pad (c6 :: 'g' :: 'z' :: rest))))
    else
      '.' :: (pad ++ ('x' :: 'd' :: 's' ::
        (c0 :: 'f' :: 'a' :: 's' :: 't' :: 'q' :: c6 :: 'g' :: 'z' :: subFastq pad rest)))
  | c0 :: 'f' :: 'a' :: 's' :: 't' :: 'q' :: rest =>
    if c0 == '\n' then
      c0 :: subFastq pad ('f' :: 'a' :: 's' :: 't' :: 'q' :: rest)
    else
      '.' :: (pad ++ ('x' :: 'd' :: 's' ::
        (c0 :: 'f' :: 'a' :: 's' :: 't' :: 'q' :: subFastq pad rest)))
  | c :: rest => c :: subFastq pad rest
  | [] => []

/-- The extend naming transformation of teaspoon.py on `String`. -/
def extendName (pad fname : String) : String := String.mk (subFastq pad.data fname.data)

/-- The extend transformation as the specification describes it: replace the
first occurrence of the literal suffix `.fastq.gz` or `.fastq` (preferring
the longer) with `.` ++ pad ++ `xds` followed by that same suffix, leaving
everything else unchanged. Stated from the words of the spec, for
comparison with `extendName`. -/
def claimedSub (pad : List Char) : List Char → List Char
  | '.' :: 'f' :: 'a' :: 's' :: 't' :: 'q' :: '.' :: 'g' :: 'z' :: rest =>
    '.' :: (pad ++ ('x' :: 'd' :: 's' ::
      ('.' :: 'f' :: 'a' :: 's' :: 't' :: 'q' :: '.' :: 'g' :: 'z' :: rest)))
  | '.' :: 'f' :: 'a' :: 's' :: 't' :: 'q' :: rest =>
    '.' :: (pad ++ ('x' :: 'd' :: 's' :: ('.' :: 'f' :: 'a' :: 's' :: 't' :: 'q' :: rest)))
  | c :: rest => c :: claimedSub pad rest
  | [] => []

/-- Spec-described extend transformation on `String` (see `claimedSub`). -/
def extendNameClaimed (pad fname : String) : String :=
  String.mk (claimedSub pad.data fname.data)

/-- Model of Python `str(n).zfill(width)` for a nonnegative number rendered
as `s` (the sign handling of `zfill` is irrelevant: both entry points
validate that the coverage is positive before this is reached). -/
def zfill (width : Nat) (s : String) : String :=
  if s.length < width then String.mk (List.replicate (width - s.length) '0' ++ s.data) else s

/-- The `padded_coverage` string of teaspoon.py: `str(desired_coverage).zfill(3)`. -/
def paddedCoverage (cov : Int) : String := zfill 3 (toString cov)

/-- The prepend naming scheme of teaspoon.py: `padded ++ "xds-" ++ fname`. -/
def prependName (padded fname : String) : String := padded ++ "xds-" ++ fname

/-- Model of `os.path.join(dir, f)` for the cases the program exercises
(`f` is a basename coming from `os.listdir`, never absolute). -/
def pathJoin (dir f : String) : String :=
  if dir = "" then f
  else if endsWithStr "/" dir then dir ++ f
  else dir ++ "/" ++ f

/-- Model of `os.path.basename`. -/
def pyBasename (s : String) : String :=
  String.mk ((s.data.reverse.takeWhile (fun c => c ≠ '/')).reverse)

/-! ## Errors, effects and the execution environment -/

/-- The Python exceptions the program can raise, by site. -/
inductive TeaError where
  /-- `FileNotFoundError("One or both read files do not exist.")` -/
  | fileNotFound
  /-- `ValueError("Desired coverage must be a positive integer.")` -/
  | badCoverage
  /-- `ValueError("name_type must be one of: prepend, insert, extend")` -/
  | badNameType
  /-- `IndexError` from `filename.split('_', 1)[1]` when there is no underscore. -/
  | indexError
  /-- `ValueError` raised by `float(...)` on an unparsable numeric string. -/
  | floatParseError
  /-- `ValueError("Could not parse genome size and coverage from mash output.")` -/
  | parseError
  /-- `subprocess.CalledProcessError` from `subprocess.run(rasusa_command, check=True)`. -/
  | calledProcessError
  deriving DecidableEq

/-- The externally visible side effects of a run, recorded as a trace. -/
inductive Action where
  /-- `os.makedirs(dir)` -/
  | makedirs (dir : String)
  /-- `shutil.copy(src, dst)` -/
  | copy (src dst : String)
  /-- the mash sketch subprocess over the pair's concatenated bytes -/
  | mashSketch (r1 r2 : String)
  /-- the rasusa subprocess with genome size, coverage, outputs and inputs -/
  | rasusa (genomeSize : ℚ) (coverage : Int) (out1 out2 in1 in2 : String)
  deriving DecidableEq

/-- True exactly on the two external-tool invocations. -/
def isExternalTool : Action → Bool
  | .mashSketch _ _ => true
  | .rasusa _ _ _ _ _ _ => true
  | _ => false

/-- The ambient world the program runs against: filesystem predicates and
the observable behaviour of the two external tools, keyed by input paths. -/
structure Env where
  /-- `os.path.isdir` -/
  isdir : String → Bool
  /-- `os.listdir(input_dir)` of the orchestrator's input directory -/
  listing : List String
  /-- `os.path.isfile` -/
  isfile : String → Bool
  /-- `os.path.exists` -/
  pathExists : String → Bool
  /-- `os.stat(p).st_size` -/
  fileSize : String → Nat
  /-- the stderr lines mash prints for the pair with these input paths -/
  mashLines : String → String → List String
  /-- the exit status of rasusa for the pair with these input paths -/
  rasusaExit : String → String → Int

instance {ε α : Type} [DecidableEq ε] [DecidableEq α] : DecidableEq (Except ε α) :=
  fun a b =>
    match a, b with
    | .error e₁, .error e₂ =>
      if h : e₁ = e₂ then .isTrue (by rw [h]) else .isFalse (by simp [h])
    | .ok v₁, .ok v₂ =>
      if h : v₁ = v₂ then .isTrue (by rw [h]) else .isFalse (by simp [h])
    | .error _, .ok _ => .isFalse (by simp)
    | .ok _, .error _ => .isFalse (by simp)

/-! ## Coverage-estimate parsing (teaspoon.py lines 95-106) -/

/-- Model of Python `round` on the exact rational value of a float:
round half to even. The fractional part `q - floor q` equals
`(q.num - floor q * q.den) / q.den`, so comparing it with `1 / 2` is
comparing `2 * (q.num - floor q * q.den)` with `q.den`; the definition is
phrased with that integer arithmetic so that the kernel can evaluate it. -/
def roundHalfEven (q : ℚ) : ℤ :=
  if 2 * (q.num - q.floor * q.den) < (q.den : ℤ) then q.floor
  else if (q.den : ℤ) < 2 * (q.num - q.floor * q.den) then q.floor + 1
  else if q.floor % 2 = 0 then q.floor else q.floor + 1

/-- `float(line.split(":")[1].strip())` for one mash stderr line. -/
def parseLineFloat (l : String) : Except TeaError ℚ :=
  match (splitOnChar ':' l.data)[1]? with
  | none => .error TeaError.indexError
  | some f =>
    match parseDecimal (stripL f) with
    | none => .error TeaError.floatParseError
    | some v => .ok v

/-- The loop over mash stderr lines: later matching lines overwrite earlier
values; lines matching neither prefix are skipped. -/
def parseMashLoop : List String → Option ℚ → Option ℤ →
    Except TeaError (Option ℚ × Option ℤ)
  | [], g, c => .ok (g, c)
  | l :: ls, g, c =>
    if startsWithStr "Estimated genome size:" l then
      match parseLineFloat l with
      | .error e => .error e
      | .ok v => parseMashLoop ls (some v) c
    else if startsWithStr "Estimated coverage:" l then
      match parseLineFloat l with
      | .error e => .error e
      | .ok v => parseMashLoop ls g (some (roundHalfEven v))
    else parseMashLoop ls g c

/-- Parse genome size and rounded coverage from the mash stderr lines;
`ValueError` when either value was never assigned. -/
def parseMashStderr (lines : List String) : Except TeaError (ℚ × ℤ) :=
  match parseMashLoop lines none none with
  | .error e => .error e
  | .ok (some g, some c) => .ok (g, c)
  | .ok _ => .error TeaError.parseError

/-! ## teaspoon.py: subsample_reads -/

/-- Output filename computation for one read, by naming scheme
(teaspoon.py lines 37-64); `insert` raises `IndexError` when the filename
has no underscore. The final branch mirrors the unreachable
`else` fallback of the source. -/
def outName (nameType padded outputDir fname : String) : Except TeaError String :=
  if nameType = "prepend" then
    .ok (pathJoin outputDir (prependName padded fname))
  else if nameType = "insert" then
    match splitOnceL '_' fname.data with
    | some (pre, post) =>
      .ok (pathJoin outputDir (String.mk pre ++ "-" ++ padded ++ "xds_" ++ String.mk post))
    | none => .error TeaError.indexError
  else if nameType = "extend" then
    .ok (pathJoin outputDir (extendName padded fname))
  else
    .ok (pathJoin outputDir (prependName padded fname))

/-- Embedding of `subsample_reads` (teaspoon.py). On success it returns the
trace of side effects it performed, in order. -/
def subsampleReads (env : Env) (desiredCoverage : Int) (nameType r1 r2 outputDir : String) :
    Except TeaError (List Action) := do
  if env.isfile r1 = false ∨ env.isfile r2 = false then throw TeaError.fileNotFound
  if desiredCoverage ≤ 0 then throw TeaError.badCoverage
  if nameType ∉ ["prepend", "insert", "extend"] then throw TeaError.badNameType
  let mkActs : List Action :=
    if env.pathExists outputDir then [] else [Action.makedirs outputDir]
  let r1Filename := pyBasename r1
  let r2Filename := pyBasename r2
  let padded := paddedCoverage desiredCoverage
  let r1Out ← outName nameType padded outputDir r1Filename
  let r2Out ← outName nameType padded outputDir r2Filename
  if env.fileSize r1 ≤ 100 ∨ env.fileSize r2 ≤ 100 then
    return mkActs ++ [Action.copy r1 r1Out, Action.copy r2 r2Out]
  let est ← parseMashStderr (env.mashLines r1 r2)
  if env.rasusaExit r1 r2 ≠ 0 then throw TeaError.calledProcessError
  return mkActs ++ [Action.mashSketch r1 r2,
    Action.rasusa est.1 desiredCoverage r1Out r2Out r1 r2]

/-! ## tablespoon.py: downsample_paired_reads -/

/-- Run configuration of the orchestrator (its function arguments). -/
structure RunConfig where
  desiredCoverage : Int
  nameType : String
  inputDir : String
  exclude : Option String
  outputDir : String
  threads : Int

/-- The per-pair result as aggregated by the orchestrator. -/
inductive PairOutcome where
  | success (acts : List Action)
  | failure (e : TeaError)
  deriving DecidableEq

/-- The outcome of a whole orchestrator run: either `sys.exit(code)` during
validation or discovery, or completion with one report per discovered pair,
each report carrying the pair's paths. -/
inductive RunOutcome where
  | exited (code : Nat)
  | completed (reports : List (String × String × PairOutcome))
  deriving DecidableEq

/-- The process exit status implied by a `RunOutcome`: falling off the end
of `downsample_paired_reads` lets the interpreter exit 0. -/
def processExitCode : RunOutcome → Nat
  | .exited n => n
  | .completed _ => 0

/-- Pair discovery (tablespoon.py lines 41-51): one pass over the listing;
note the source replaces `_1.` and `_R1_` in the full joined path, and
never tests whether the read-1 entry itself is a regular file. -/
def scanPairs (env : Env) (inputDir : String) (exclude : Option String) :
    List (String × String) :=
  env.listing.filterMap fun filename =>
    if ((endsWithStr ".fastq" filename || endsWithStr ".fastq.gz" filename)
        && (match exclude with
            | none => true
            | some e => !startsWithStr e filename)) = true then
      if (containsStr "_1." filename || containsStr "_R1_" filename) = true then
        let read1Path := pathJoin inputDir filename
        let read2Path := replaceR1R2 (replace12 read1Path)
        if env.isfile read2Path = true then some (read1Path, read2Path) else none
      else none
    else none

/-- Pair discovery as the claim describes it: read1 must itself be a regular
file, and the read-2 path is the input directory joined with the transformed
*filename* (the directory part untouched). Stated from the words of the
spec, for comparison with `scanPairs`. -/
def scanPairsClaimed (env : Env) (inputDir : String) (exclude : Option String) :
    List (String × String) :=
  env.listing.filterMap fun filename =>
    if ((endsWithStr ".fastq" filename || endsWithStr ".fastq.gz" filename)
        && (match exclude with
            | none => true
            | some e => !startsWithStr e filename)) = true then
      if (containsStr "_1." filename || containsStr "_R1_" filename) = true then
        let read1Path := pathJoin inputDir filename
        let read2Path := pathJoin inputDir (replaceR1R2 (replace12 filename))
        if env.isfile read1Path = true && env.isfile read2Path = true then
          some (read1Path, read2Path)
        else none
      else none
    else none

/-- The worker body `process_read_pair`: every exception from the pair's
processing is caught (printed with the pair's paths, re-raised into the
future, and swallowed by the `as_completed` loop), so it reduces to a total
function onto `PairOutcome`. -/
def processReadPair (env : Env) (desiredCoverage : Int) (nameType outputDir : String)
    (pr : String × String) : PairOutcome :=
  match subsampleReads env desiredCoverage nameType pr.1 pr.2 outputDir with
  | .ok acts => .success acts
  | .error e => .failure e

/-- Embedding of `downsample_paired_reads` (tablespoon.py): validations with
`sys.exit(1)`, output-directory creation, discovery, and the worker pool,
which processes every discovered pair independently. -/
def downsamplePairedReads (env : Env) (cfg : RunConfig) : List Action × RunOutcome :=
  if env.isdir cfg.inputDir = false then ([], .exited 1)
  else
    let mkActs : List Action :=
      if env.isdir cfg.outputDir then [] else [Action.makedirs cfg.outputDir]
    if cfg.nameType ∉ ["prepend", "insert", "extend"] then (mkActs, .exited 1)
    else if cfg.desiredCoverage ≤ 0 then (mkActs, .exited 1)
    else if cfg.threads ≤ 0 then (mkActs, .exited 1)
    else
      let pairs := scanPairs env cfg.inputDir cfg.exclude
      if pairs = [] then (mkActs, .exited 1)
      else
        (mkActs, .completed (pairs.map fun pr =>
          (pr.1, pr.2, processReadPair env cfg.desiredCoverage cfg.nameType cfg.outputDir pr)))

/-! ## Helper lemmas -/

theorem string_eq_of_data {a b : String} (h : a.data = b.data) : a = b := by
  cases a
  cases b
  exact congrArg String.mk h

theorem rat_floor_eq_intFloor (q : ℚ) : q.floor = ⌊q⌋ := by
  rw [Rat.floor_def']
  rw [Rat.floor_def]

theorem splitOnceL_eq_none {l : List Char} (h : '_' ∉ l) : splitOnceL '_' l = none := by
  induction l with
  | nil => rfl
  | cons c t ih =>
    have hc : (c == '_') = false := by
      simp only [List.mem_cons, not_or] at h
      exact beq_eq_false_iff_ne.mpr fun hcq => h.1 hcq.symm
    simp [splitOnceL, hc, ih (fun hm => h (List.mem_cons_of_mem c hm))]

theorem contains_head_mem {c : Char} {cs l : List Char}
    (h : containsL (c :: cs) l = true) : c ∈ l := by
  induction l with
  | nil => simp [containsL, List.isEmpty] at h
  | cons d t ih =>
    simp only [containsL, Bool.or_eq_true] at h
    rcases h with h | h
    · simp only [startsWithL, Bool.and_eq_true, beq_iff_eq] at h
      simp [h.1]
    · exact List.mem_cons_of_mem d (ih h)

theorem subFastq_cons_two (pad : List Char) (c d : Char) (t : List Char) (hd : d ≠ 'f') :
    subFastq pad (c :: d :: t) = c :: subFastq pad (d :: t) := by
  conv_lhs => rw [subFastq.eq_def]
  split
  all_goals simp_all

theorem subFastq_no_f (pad sfx : List Char)
    (hs : sfx = '.' :: 'f' :: 'a' :: 's' :: 't' :: 'q' :: []
        ∨ sfx = '.' :: 'f' :: 'a' :: 's' :: 't' :: 'q' :: '.' :: 'g' :: 'z' :: []) :
    ∀ p : List Char, (∀ c ∈ p, c ≠ 'f') →
      subFastq pad (p ++ sfx) = p ++ ('.' :: (pad ++ ('x' :: 'd' :: 's' :: sfx))) := by
  intro p
  induction p with
  | nil =>
    intro _
    rcases hs with h | h <;> subst h <;> rfl
  | cons c p ih =>
    intro hp
    obtain ⟨d, t, hdt, hd⟩ : ∃ d t, p ++ sfx = d :: t ∧ d ≠ 'f' := by
      cases p with
      | nil => rcases hs with h | h <;> subst h <;> exact ⟨_, _, rfl, by decide⟩
      | cons e p2 => exact ⟨e, p2 ++ sfx, rfl, hp e (by simp)⟩
    rw [List.cons_append, hdt, subFastq_cons_two pad c d t hd, ← hdt,
      ih (fun x hx => hp x (List.mem_cons_of_mem c hx))]
    simp

/-! ## Concrete environments used as test worlds -/

/-- One discovered pair whose mash output is empty, so its processing fails. -/
def envFailPair : Env := {
  isdir := fun d => d == "in" || d == "out",
  listing := ["s_1.fastq"],
  isfile := fun p => p == "in/s_1.fastq" || p == "in/s_2.fastq",
  pathExists := fun p => p == "out",
  fileSize := fun _ => 200,
  mashLines := fun _ _ => [],
  rasusaExit := fun _ _ => 0 }

/-- Configuration for `envFailPair` runs. -/
def cfgFailPair : RunConfig := ⟨30, "prepend", "in", none, "out", 4⟩

/-- Two discovered pairs: pair `a` has well-formed mash output, pair `b`
produces no mash output lines, so only `b` fails. -/
def envTwoPairs : Env := {
  isdir := fun d => d == "in" || d == "out",
  listing := ["a_1.fastq", "b_1.fastq"],
  isfile := fun p => p == "in/a_1.fastq" || p == "in/a_2.fastq"
      || p == "in/b_1.fastq" || p == "in/b_2.fastq",
  pathExists := fun p => p == "out",
  fileSize := fun _ => 200,
  mashLines := fun r1 _ => if r1 == "in/a_1.fastq" then
      ["Estimated genome size: 5000000.0", "Estimated coverage: 42.7"] else [],
  rasusaExit := fun _ _ => 0 }

/-- Configuration for `envTwoPairs` runs. -/
def cfgTwoPairs : RunConfig := ⟨30, "prepend", "in", none, "out", 4⟩

/-- A world where the two read files exist but the output directory and the
external tools are irrelevant; the read-1 basename has no underscore. -/
def envNoUnderscore : Env := {
  isdir := fun _ => true,
  listing := [],
  isfile := fun p => p == "d/reads1.fastq" || p == "d/reads2.fastq",
  pathExists := fun _ => true,
  fileSize := fun _ => 200,
  mashLines := fun _ _ => [],
  rasusaExit := fun _ _ => 0 }

/-- A listing entry whose computed partner exists only because the
directory part of the joined path is rewritten too; the read-1 path itself
is not a regular file. -/
def envDirRewrite : Env := {
  isdir := fun _ => true,
  listing := ["s_1.fastq"],
  isfile := fun p => p == "d_2.x/s_2.fastq",
  pathExists := fun _ => false,
  fileSize := fun _ => 0,
  mashLines := fun _ _ => [],
  rasusaExit := fun _ _ => 0 }

/-- A world with two near-empty read files for the copy short-circuit. -/
def envEmptyReads : Env := {
  isdir := fun _ => true,
  listing := [],
  isfile := fun p => p == "d/e_1.fastq" || p == "d/e_2.fastq",
  pathExists := fun _ => false,
  fileSize := fun p => if p == "d/e_1.fastq" then 50 else 10000,
  mashLines := fun _ _ => [],
  rasusaExit := fun _ _ => 0 }

/-- A world with a valid input directory and a missing output directory,
used to observe the creation of the output directory during validation. -/
def envMkdir : Env := {
  isdir := fun d => d == "in",
  listing := [],
  isfile := fun _ => false,
  pathExists := fun _ => false,
  fileSize := fun _ => 0,
  mashLines := fun _ _ => [],
  rasusaExit := fun _ _ => 0 }

/-! ## Claim C4: the extend naming scheme -/

/-- Claim C4 counterexample: on `a_fastq.fastq` the source substitution
(wildcard dots, all occurrences) differs from the claimed
first-literal-suffix replacement. -/
theorem c4_counterexample :
    extendName "003" "a_fastq.fastq" = "a.003xds_fastq.003xds.fastq"
    ∧ extendNameClaimed "003" "a_fastq.fastq" = "a_fastq.003xds.fastq"
    ∧ extendName "003" "a_fastq.fastq" ≠ extendNameClaimed "003" "a_fastq.fastq" :=
  ⟨by decide, by decide, by decide⟩

/-- Claim C4 (amended): the extend scheme performs a regex substitution in
which the dots are wildcards and every non-overlapping occurrence is
replaced; when the filename is `base ++ ".fastq"` or `base ++ ".fastq.gz"`
and `base` contains no letter f (so the only match is the terminal literal
suffix), the output is `base` followed by `.`, the padded coverage, `xds`,
and that same suffix, as the claim describes. -/
theorem c4_extend_suffix (pad base : String) (h : ∀ c ∈ base.data, c ≠ 'f') :
    extendName pad (base ++ ".fastq") = base ++ "." ++ pad ++ "xds" ++ ".fastq"
    ∧ extendName pad (base ++ ".fastq.gz") = base ++ "." ++ pad ++ "xds" ++ ".fastq.gz" := by
  constructor
  · apply string_eq_of_data
    have h1 : (base ++ ".fastq").data
        = base.data ++ ('.' :: 'f' :: 'a' :: 's' :: 't' :: 'q' :: []) := by
      rw [String.data_append]
    simp only [extendName, h1]
    rw [subFastq_no_f pad.data _ (Or.inl rfl) base.data h]
    simp [String.data_append]
  · apply string_eq_of_data
    have h1 : (base ++ ".fastq.gz").data
        = base.data ++ ('.' :: 'f' :: 'a' :: 's' :: 't' :: 'q' :: '.' :: 'g' :: 'z' :: []) := by
      rw [String.data_append]
    simp only [extendName, h1]
    rw [subFastq_no_f pad.data _ (Or.inr rfl) base.data h]
    simp [String.data_append]

/-- Claim C4 amended witness at a concrete input. -/
theorem c4_extend_suffix_witness :
    extendName "003" ("sample_R1_001" ++ ".fastq") = "sample_R1_001.003xds.fastq" :=
  (c4_extend_suffix "003" "sample_R1_001" (by decide)).1

/-! ## Claim C5: the prepend naming scheme and its round trip -/

/-- Claim C5: for a positive coverage, the prepend scheme emits the
coverage zero-padded to at least 3 digits (never truncated), then `xds-`,
then the original filename; dropping the `padded ++ "xds-"` prefix
recovers the original filename exactly. -/
theorem c5_prepend_roundtrip (cov : Int) (h : 0 < cov) (f : String) :
    prependName (paddedCoverage cov) f = paddedCoverage cov ++ "xds-" ++ f
    ∧ (paddedCoverage cov).data
        = List.replicate (3 - (toString cov).length) '0' ++ (toString cov).data
    ∧ 3 ≤ (paddedCoverage cov).length
    ∧ (prependName (paddedCoverage cov) f).data.drop ((paddedCoverage cov).length + 4)
        = f.data := by
  have hdata : (paddedCoverage cov).data
      = List.replicate (3 - (toString cov).length) '0' ++ (toString cov).data := by
    unfold paddedCoverage zfill
    split
    · rfl
    · next hlt =>
      rw [Nat.sub_eq_zero_of_le (Nat.le_of_not_lt hlt)]
      simp
  have hlen : 3 ≤ (paddedCoverage cov).length := by
    have he : (paddedCoverage cov).length = (paddedCoverage cov).data.length := rfl
    rw [he, hdata]
    simp only [List.length_append, List.length_replicate]
    have hsl : (toString cov).length = (toString cov).data.length := rfl
    omega
  refine ⟨rfl, hdata, hlen, ?_⟩
  have happ : (prependName (paddedCoverage cov) f).data
      = ((paddedCoverage cov).data ++ "xds-".data) ++ f.data := by
    simp [prependName, String.data_append]
  rw [happ]
  have hl : (paddedCoverage cov).length + 4
      = ((paddedCoverage cov).data ++ "xds-".data).length := by
    rw [List.length_append]
    rfl
  rw [hl, List.drop_left]

/-- Claim C5 witness at coverage 7 and a concrete filename. -/
theorem c5_prepend_roundtrip_witness :
    prependName (paddedCoverage 7) "s_1.fastq" = paddedCoverage 7 ++ "xds-" ++ "s_1.fastq"
    ∧ (paddedCoverage 7).data
        = List.replicate (3 - (toString (7 : Int)).length) '0' ++ (toString (7 : Int)).data
    ∧ 3 ≤ (paddedCoverage 7).length
    ∧ (prependName (paddedCoverage 7) "s_1.fastq").data.drop ((paddedCoverage 7).length + 4)
        = "s_1.fastq".data :=
  c5_prepend_roundtrip 7 (by decide) "s_1.fastq"

/-! ## Claim C10: rounding of the parsed coverage -/

/-- Claim C10: when the parsed coverage lies exactly halfway between two
integers the model of Python round picks the even neighbor, and through
the whole parsing pipeline `42.5` gives `42` while `43.5` gives `44`. -/
theorem c10_round_half_to_even :
    (∀ q : ℚ, q - ⌊q⌋ = 1 / 2 →
      roundHalfEven q % 2 = 0
      ∧ roundHalfEven q = if ⌊q⌋ % 2 = 0 then ⌊q⌋ else ⌊q⌋ + 1)
    ∧ parseMashStderr ["Estimated genome size: 5.0", "Estimated coverage: 42.5"]
        = .ok (5, 42)
    ∧ parseMashStderr ["Estimated genome size: 5.0", "Estimated coverage: 43.5"]
        = .ok (5, 44) := by
  refine ⟨?_, by decide, by decide⟩
  intro q hq
  have hd0 : ((q.den : ℚ)) ≠ 0 := by
    exact_mod_cast q.den_nz
  have hnum : (q.num : ℚ) = q * q.den := (div_eq_iff hd0).mp (Rat.num_div_den q)
  have key : 2 * (q.num - ⌊q⌋ * q.den) = (q.den : ℤ) := by
    have hcast : ((2 * (q.num - ⌊q⌋ * q.den) : ℤ) : ℚ) = ((q.den : ℤ) : ℚ) := by
      push_cast
      linear_combination 2 * hnum + 2 * (q.den : ℚ) * hq
    exact_mod_cast hcast
  unfold roundHalfEven
  rw [rat_floor_eq_intFloor, key]
  by_cases hf : ⌊q⌋ % 2 = 0
  · simp [hf]
  · have h1 : ⌊q⌋ % 2 = 1 := Int.emod_two_eq_zero_or_one ⌊q⌋ |>.resolve_left hf
    simp only [lt_irrefl, if_false, hf, if_neg hf]
    constructor
    · omega
    · simp [hf]

/-- Claim C10 witness at the concrete halfway value 85/2. -/
theorem c10_round_half_to_even_witness :
    roundHalfEven ((85 : ℚ) / 2) % 2 = 0
    ∧ roundHalfEven ((85 : ℚ) / 2)
        = if ⌊(85 : ℚ) / 2⌋ % 2 = 0 then ⌊(85 : ℚ) / 2⌋ else ⌊(85 : ℚ) / 2⌋ + 1 :=
  c10_round_half_to_even.1 ((85 : ℚ) / 2) (by norm_num)

/-! ## Claim C6: pair discovery -/

/-- Claim C6 counterexample: with input directory `d_1.x` (which itself
contains `_1.`) and a listing entry that is not a regular file, the source
scanner returns a pair whose read-2 path lives in a rewritten directory,
while the claimed scanner returns nothing. -/
theorem c6_counterexample :
    scanPairs envDirRewrite "d_1.x" none = [("d_1.x/s_1.fastq", "d_2.x/s_2.fastq")]
    ∧ scanPairsClaimed envDirRewrite "d_1.x" none = []
    ∧ scanPairs envDirRewrite "d_1.x" none ≠ scanPairsClaimed envDirRewrite "d_1.x" none :=
  ⟨by decide, by decide, by decide⟩

/-- Claim C6 (amended): the scanner returns exactly the pairs built from a
listing entry that ends in `.fastq` or `.fastq.gz`, does not start with the
exclusion prefix, and contains `_1.` or `_R1_`, where read2 is obtained by
replacing all occurrences of `_1.` by `_2.` and then `_R1_` by `_R2_` in
the full joined read-1 path (directory part included) and must be a
regular file; the read-1 entry itself is never tested to be a regular
file. Everything else is silently omitted. -/
theorem c6_scanner_membership (env : Env) (inputDir : String) (exclude : Option String)
    (pr : String × String) :
    pr ∈ scanPairs env inputDir exclude ↔
      ∃ filename, filename ∈ env.listing
        ∧ ((endsWithStr ".fastq" filename || endsWithStr ".fastq.gz" filename)
            && (match exclude with
                | none => true
                | some e => !startsWithStr e filename)) = true
        ∧ (containsStr "_1." filename || containsStr "_R1_" filename) = true
        ∧ env.isfile (replaceR1R2 (replace12 (pathJoin inputDir filename))) = true
        ∧ pr = (pathJoin inputDir filename,
            replaceR1R2 (replace12 (pathJoin inputDir filename))) := by
  simp only [scanPairs, List.mem_filterMap]
  constructor
  · rintro ⟨fn, hmem, hf⟩
    refine ⟨fn, hmem, ?_⟩
    split at hf
    · split at hf
      · split at hf
        · next h1 h2 h3 =>
          cases hf
          exact ⟨h1, h2, h3, rfl⟩
        · exact absurd hf (by simp)
      · exact absurd hf (by simp)
    · exact absurd hf (by simp)
  · rintro ⟨fn, hmem, h1, h2, h3, hpr⟩
    refine ⟨fn, hmem, ?_⟩
    rw [if_pos h1, if_pos h2, if_pos h3, hpr]

/-- Claim C6 amended witness: the characterization instantiated at the
concrete world `envDirRewrite`. -/
theorem c6_scanner_membership_witness :
    ("d_1.x/s_1.fastq", "d_2.x/s_2.fastq") ∈ scanPairs envDirRewrite "d_1.x" none :=
  (c6_scanner_membership envDirRewrite "d_1.x" none
    ("d_1.x/s_1.fastq", "d_2.x/s_2.fastq")).mpr
    ⟨"s_1.fastq", by decide, by decide, by decide, by decide, by decide⟩

/-! ## Claim C7: the effectively-empty short-circuit -/

/-- Claim C7: when either read file is at most 100 bytes and the naming
computation succeeds, `subsample_reads` only (possibly) creates the output
directory and copies both inputs verbatim to the computed output paths,
reporting success; no external tool is invoked. -/
theorem c7_empty_copy (env : Env) (cov : Int) (nameType r1 r2 outputDir r1Out r2Out : String)
    (h1 : env.isfile r1 = true) (h2 : env.isfile r2 = true) (h3 : 0 < cov)
    (h4 : nameType ∈ ["prepend", "insert", "extend"])
    (h5 : outName nameType (paddedCoverage cov) outputDir (pyBasename r1) = .ok r1Out)
    (h6 : outName nameType (paddedCoverage cov) outputDir (pyBasename r2) = .ok r2Out)
    (h7 : env.fileSize r1 ≤ 100 ∨ env.fileSize r2 ≤ 100) :
    subsampleReads env cov nameType r1 r2 outputDir
      = .ok ((if env.pathExists outputDir then [] else [Action.makedirs outputDir])
          ++ [Action.copy r1 r1Out, Action.copy r2 r2Out])
    ∧ ∀ a ∈ (if env.pathExists outputDir then ([] : List Action)
          else [Action.makedirs outputDir])
        ++ [Action.copy r1 r1Out, Action.copy r2 r2Out],
        isExternalTool a = false := by
  constructor
  · have hcov : ¬ cov ≤ 0 := by omega
    rcases h7 with h7 | h7 <;>
      simp [subsampleReads, h1, h2, hcov, h4, h5, h6, h7, bind, Except.bind, pure, Except.pure]
  · intro a ha
    rcases List.mem_append.mp ha with ha | ha
    · split at ha
      · exact absurd ha (by simp)
      · simp only [List.mem_singleton] at ha
        subst ha
        rfl
    · simp only [List.mem_cons, List.not_mem_nil, or_false] at ha
      rcases ha with rfl | rfl <;> rfl

/-- Claim C7 witness: a 50-byte read1 with a 10000-byte read2 is copied. -/
theorem c7_empty_copy_witness :
    subsampleReads envEmptyReads 30 "prepend" "d/e_1.fastq" "d/e_2.fastq" "out"
      = .ok ((if envEmptyReads.pathExists "out" then [] else [Action.makedirs "out"])
          ++ [Action.copy "d/e_1.fastq" "out/030xds-e_1.fastq",
              Action.copy "d/e_2.fastq" "out/030xds-e_2.fastq"]) :=
  (c7_empty_copy envEmptyReads 30 "prepend" "d/e_1.fastq" "d/e_2.fastq" "out"
    "out/030xds-e_1.fastq" "out/030xds-e_2.fastq"
    (by decide) (by decide) (by decide) (by decide) (by decide) (by decide)
    (Or.inl (by decide))).1

/-! ## Claim C3: insert scheme and the missing underscore -/

/-- Claim C3 counterexample: with the insert scheme and an existing pair
whose read-1 basename has no underscore, processing the pair yields a
per-pair failure (`IndexError`), after the configuration validations have
all passed; no configuration-time check rejects the filename. -/
theorem c3_counterexample :
    processReadPair envNoUnderscore 30 "insert" "out" ("d/reads1.fastq", "d/reads2.fastq")
      = .failure TeaError.indexError :=
  by decide

/-- Claim C3 (amended): under the insert scheme a read-1 basename without
an underscore raises `IndexError` during per-pair processing — after the
file, coverage and scheme validations have passed — and surfaces as that
pair's failure; there is no configuration-time filename validation.
Moreover every pair produced by the Directory Scanner has a read-1
filename containing an underscore, so orchestrated runs never reach this
failure. -/
theorem c3_insert_no_underscore (env : Env) (cov : Int) (r1 r2 outputDir : String)
    (h1 : env.isfile r1 = true) (h2 : env.isfile r2 = true) (h3 : 0 < cov)
    (h4 : '_' ∉ (pyBasename r1).data) :
    processReadPair env cov "insert" outputDir (r1, r2) = .failure TeaError.indexError
    ∧ ∀ (env2 : Env) (inputDir : String) (exclude : Option String)
        (pr : String × String), pr ∈ scanPairs env2 inputDir exclude →
        ∃ filename, filename ∈ env2.listing
          ∧ pr.1 = pathJoin inputDir filename
          ∧ '_' ∈ filename.data := by
  constructor
  · have hcov : ¬ cov ≤ 0 := by omega
    simp [processReadPair, subsampleReads, h1, h2, hcov, outName,
      splitOnceL_eq_none h4, bind, Except.bind, pure, Except.pure,
      show ("insert" : String) ∈ ["prepend", "insert", "extend"] from by decide,
      show ("insert" : String) ≠ "prepend" from by decide]
  · intro env2 inputDir exclude pr hpr
    simp only [scanPairs, List.mem_filterMap] at hpr
    obtain ⟨fn, hmem, hf⟩ := hpr
    split at hf
    · split at hf
      · split at hf
        · next hcond hread1 hfile =>
          cases hf
          refine ⟨fn, hmem, rfl, ?_⟩
          rcases Bool.or_eq_true _ _ |>.mp hread1 with hc | hc
          · exact contains_head_mem hc
          · exact contains_head_mem hc
        · exact absurd hf (by simp)
      · exact absurd hf (by simp)
    · exact absurd hf (by simp)

/-- Claim C3 amended witness at a concrete pair. -/
theorem c3_insert_no_underscore_witness :
    processReadPair envNoUnderscore 77 "insert" "out" ("d/reads1.fastq", "d/reads2.fastq")
      = .failure TeaError.indexError :=
  (c3_insert_no_underscore envNoUnderscore 77 "d/reads1.fastq" "d/reads2.fastq" "out"
    (by decide) (by decide) (by decide) (by decide)).1

/-! ## Claim C8: coverage-estimate parsing -/

theorem parseMashLoop_no_genome (ls : List String) :
    ∀ c : Option ℤ, (∀ l ∈ ls, startsWithStr "Estimated genome size:" l = false) →
      (∃ e, parseMashLoop ls none c = .error e)
      ∨ (∃ cv, parseMashLoop ls none c = .ok (none, cv)) := by
  induction ls with
  | nil =>
    intro c _
    exact Or.inr ⟨c, rfl⟩
  | cons l ls ih =>
    intro c hno
    have hl : startsWithStr "Estimated genome size:" l = false := hno l (by simp)
    have htail : ∀ x ∈ ls, startsWithStr "Estimated genome size:" x = false :=
      fun x hx => hno x (List.mem_cons_of_mem l hx)
    by_cases hc : startsWithStr "Estimated coverage:" l = true
    · cases hpl : parseLineFloat l with
      | error e =>
        refine Or.inl ⟨e, ?_⟩
        simp [parseMashLoop, hl, hc, hpl]
      | ok v =>
        have := ih (some (roundHalfEven v)) htail
        rcases this with ⟨e, he⟩ | ⟨cv, hcv⟩
        · exact Or.inl ⟨e, by simp [parseMashLoop, hl, hc, hpl, he]⟩
        · exact Or.inr ⟨cv, by simp [parseMashLoop, hl, hc, hpl, hcv]⟩
    · have hc2 : startsWithStr "Estimated coverage:" l = false := by
        simpa using hc
      rcases ih c htail with ⟨e, he⟩ | ⟨cv, hcv⟩
      · exact Or.inl ⟨e, by simp [parseMashLoop, hl, hc2, he]⟩
      · exact Or.inr ⟨cv, by simp [parseMashLoop, hl, hc2, hcv]⟩

theorem parseMashLoop_no_coverage (ls : List String) :
    ∀ g : Option ℚ, (∀ l ∈ ls, startsWithStr "Estimated coverage:" l = false) →
      (∃ e, parseMashLoop ls g none = .error e)
      ∨ (∃ gv, parseMashLoop ls g none = .ok (gv, none)) := by
  induction ls with
  | nil =>
    intro g _
    exact Or.inr ⟨g, rfl⟩
  | cons l ls ih =>
    intro g hno
    have hl : startsWithStr "Estimated coverage:" l = false := hno l (by simp)
    have htail : ∀ x ∈ ls, startsWithStr "Estimated coverage:" x = false :=
      fun x hx => hno x (List.mem_cons_of_mem l hx)
    by_cases hg : startsWithStr "Estimated genome size:" l = true
    · cases hpl : parseLineFloat l with
      | error e =>
        refine Or.inl ⟨e, ?_⟩
        simp [parseMashLoop, hg, hpl]
      | ok v =>
        rcases ih (some v) htail with ⟨e, he⟩ | ⟨gv, hgv⟩
        · exact Or.inl ⟨e, by simp [parseMashLoop, hg, hpl, he]⟩
        · exact Or.inr ⟨gv, by simp [parseMashLoop, hg, hpl, hgv]⟩
    · have hg2 : startsWithStr "Estimated genome size:" l = false := by
        simpa using hg
      rcases ih g htail with ⟨e, he⟩ | ⟨gv, hgv⟩
      · exact Or.inl ⟨e, by simp [parseMashLoop, hg2, hl, he]⟩
      · exact Or.inr ⟨gv, by simp [parseMashLoop, hg2, hl, hgv]⟩

/-- Claim C8: parsing extracts the genome size and the rounded coverage
from the two prefixed diagnostic lines (shown on the concrete example),
the absence of either line makes the parse fail with an error, and such a
failure aborts only the affected pair while the sibling pair of the same
run still succeeds. -/
theorem c8_estimate_parsing :
    (∀ lines : List String,
      ((∀ l ∈ lines, startsWithStr "Estimated genome size:" l = false)
        ∨ (∀ l ∈ lines, startsWithStr "Estimated coverage:" l = false)) →
      ∃ e, parseMashStderr lines = .error e)
    ∧ parseMashStderr ["Estimated genome size: 5000000.0", "Estimated coverage: 42.7"]
        = .ok (5000000, 43)
    ∧ downsamplePairedReads envTwoPairs cfgTwoPairs
        = ([], .completed
            [("in/a_1.fastq", "in/a_2.fastq", .success
              [Action.mashSketch "in/a_1.fastq" "in/a_2.fastq",
               Action.rasusa 5000000 30 "out/030xds-a_1.fastq" "out/030xds-a_2.fastq"
                 "in/a_1.fastq" "in/a_2.fastq"]),
             ("in/b_1.fastq", "in/b_2.fastq", .failure TeaError.parseError)]) := by
  refine ⟨?_, by decide, by decide⟩
  intro lines h
  rcases h with h | h
  · rcases parseMashLoop_no_genome lines none h with ⟨e, he⟩ | ⟨cv, hcv⟩
    · exact ⟨e, by simp [parseMashStderr, he]⟩
    · exact ⟨TeaError.parseError, by simp [parseMashStderr, hcv]⟩
  · rcases parseMashLoop_no_coverage lines none h with ⟨e, he⟩ | ⟨gv, hgv⟩
    · exact ⟨e, by simp [parseMashStderr, he]⟩
    · exact ⟨TeaError.parseError, by simp [parseMashStderr, hgv]⟩

/-- Claim C8 witness: a line list with neither prefix fails to parse. -/
theorem c8_estimate_parsing_witness :
    ∃ e, parseMashStderr ["no useful output"] = .error e :=
  c8_estimate_parsing.1 ["no useful output"] (Or.inl (by decide))

/-! ## Claims C1 and C2: run completion, exit status and pair isolation -/

/-- Claim C1 counterexample: a run whose single pair fails still completes
and the process exits 0, not non-zero. -/
theorem c1_counterexample :
    downsamplePairedReads envFailPair cfgFailPair
      = ([], .completed [("in/s_1.fastq", "in/s_2.fastq", .failure TeaError.parseError)])
    ∧ processExitCode (downsamplePairedReads envFailPair cfgFailPair).2 = 0 :=
  ⟨by decide, by decide⟩

/-- Claim C1 (amended): whenever validation and discovery pass, the run
completes and the process exit status is 0, whether or not any pair
failed; per-pair failures are only reported, never propagated into the
exit status. -/
theorem c1_exit_zero_on_completion (env : Env) (cfg : RunConfig)
    (h1 : env.isdir cfg.inputDir = true)
    (h2 : cfg.nameType ∈ ["prepend", "insert", "extend"])
    (h3 : 0 < cfg.desiredCoverage)
    (h4 : 0 < cfg.threads)
    (h5 : scanPairs env cfg.inputDir cfg.exclude ≠ []) :
    (∃ reports, (downsamplePairedReads env cfg).2 = .completed reports)
    ∧ processExitCode (downsamplePairedReads env cfg).2 = 0 := by
  have hc : ¬ cfg.desiredCoverage ≤ 0 := by omega
  have ht : ¬ cfg.threads ≤ 0 := by omega
  have hrun : (downsamplePairedReads env cfg).2
      = .completed ((scanPairs env cfg.inputDir cfg.exclude).map fun pr =>
          (pr.1, pr.2, processReadPair env cfg.desiredCoverage cfg.nameType cfg.outputDir pr)) := by
    simp [downsamplePairedReads, h1, h2, hc, ht, h5]
  refine ⟨⟨_, hrun⟩, ?_⟩
  rw [hrun]
  rfl

/-- Claim C1 amended witness: the failing-pair run exits 0. -/
theorem c1_exit_zero_on_completion_witness :
    processExitCode (downsamplePairedReads envFailPair cfgFailPair).2 = 0 :=
  (c1_exit_zero_on_completion envFailPair cfgFailPair
    (by decide) (by decide) (by decide) (by decide) (by decide)).2

/-- Claim C2: once validation and discovery pass, the run always completes
(no pair outcome can abort it), producing exactly one report per
discovered pair in discovery order, and each report carries that pair's
two paths together with its outcome. -/
theorem c2_pair_isolation (env : Env) (cfg : RunConfig)
    (h1 : env.isdir cfg.inputDir = true)
    (h2 : cfg.nameType ∈ ["prepend", "insert", "extend"])
    (h3 : 0 < cfg.desiredCoverage)
    (h4 : 0 < cfg.threads)
    (h5 : scanPairs env cfg.inputDir cfg.exclude ≠ []) :
    (downsamplePairedReads env cfg).2
      = .completed ((scanPairs env cfg.inputDir cfg.exclude).map fun pr =>
          (pr.1, pr.2, processReadPair env cfg.desiredCoverage cfg.nameType cfg.outputDir pr))
    ∧ ∀ pr ∈ scanPairs env cfg.inputDir cfg.exclude,
        (pr.1, pr.2, processReadPair env cfg.desiredCoverage cfg.nameType cfg.outputDir pr)
          ∈ (scanPairs env cfg.inputDir cfg.exclude).map fun pr =>
              (pr.1, pr.2, processReadPair env cfg.desiredCoverage cfg.nameType cfg.outputDir pr) := by
  have hc : ¬ cfg.desiredCoverage ≤ 0 := by omega
  have ht : ¬ cfg.threads ≤ 0 := by omega
  constructor
  · simp [downsamplePairedReads, h1, h2, hc, ht, h5]
  · intro pr hpr
    exact List.mem_map_of_mem _ hpr

/-- Claim C2 witness: in the two-pair run, pair `b` fails, yet the run
completes with both pairs reported. -/
theorem c2_pair_isolation_witness :
    (downsamplePairedReads envTwoPairs cfgTwoPairs).2
      = .completed ((scanPairs envTwoPairs cfgTwoPairs.inputDir cfgTwoPairs.exclude).map
          fun pr => (pr.1, pr.2, processReadPair envTwoPairs cfgTwoPairs.desiredCoverage
            cfgTwoPairs.nameType cfgTwoPairs.outputDir pr)) :=
  (c2_pair_isolation envTwoPairs cfgTwoPairs
    (by decide) (by decide) (by decide) (by decide) (by decide)).1

/-! ## Claim C9: validation order and output-directory creation -/

/-- Claim C9 counterexample: with a missing output directory and an
invalid naming scheme, the run creates the output directory and only then
exits 1 — partial work is performed before validation has finished. -/
theorem c9_counterexample :
    downsamplePairedReads envMkdir ⟨30, "bogus", "in", none, "out", 4⟩
      = ([Action.makedirs "out"], .exited 1) :=
  by decide

/-- Claim C9 (amended): the checks run in the order input directory →
naming scheme → coverage → worker count → non-empty discovery, each
failure exiting 1, but the output directory is created (when missing)
right after the input-directory check, before the remaining validations —
not after all validation has passed. -/
theorem c9_validation_order (env : Env) (cfg : RunConfig) :
    (env.isdir cfg.inputDir = false → downsamplePairedReads env cfg = ([], .exited 1))
    ∧ (env.isdir cfg.inputDir = true →
        cfg.nameType ∉ ["prepend", "insert", "extend"] →
        downsamplePairedReads env cfg
          = (if env.isdir cfg.outputDir then [] else [Action.makedirs cfg.outputDir], .exited 1))
    ∧ (env.isdir cfg.inputDir = true →
        cfg.nameType ∈ ["prepend", "insert", "extend"] →
        cfg.desiredCoverage ≤ 0 →
        downsamplePairedReads env cfg
          = (if env.isdir cfg.outputDir then [] else [Action.makedirs cfg.outputDir], .exited 1))
    ∧ (env.isdir cfg.inputDir = true →
        cfg.nameType ∈ ["prepend", "insert", "extend"] →
        0 < cfg.desiredCoverage →
        cfg.threads ≤ 0 →
        downsamplePairedReads env cfg
          = (if env.isdir cfg.outputDir then [] else [Action.makedirs cfg.outputDir], .exited 1))
    ∧ (env.isdir cfg.inputDir = true →
        cfg.nameType ∈ ["prepend", "insert", "extend"] →
        0 < cfg.desiredCoverage →
        0 < cfg.threads →
        scanPairs env cfg.inputDir cfg.exclude = [] →
        downsamplePairedReads env cfg
          = (if env.isdir cfg.outputDir then [] else [Action.makedirs cfg.outputDir], .exited 1)) := by
  refine ⟨?_, ?_, ?_, ?_, ?_⟩
  · intro hin
    simp [downsamplePairedReads, hin]
  · intro hin hname
    simp [downsamplePairedReads, hin, hname]
  · intro hin hname hcov
    simp [downsamplePairedReads, hin, hname, hcov]
  · intro hin hname hcov hth
    have hc : ¬ cfg.desiredCoverage ≤ 0 := by omega
    simp [downsamplePairedReads, hin, hname, hc, hth]
  · intro hin hname hcov hth hscan
    have hc : ¬ cfg.desiredCoverage ≤ 0 := by omega
    have ht : ¬ cfg.threads ≤ 0 := by omega
    simp [downsamplePairedReads, hin, hname, hc, ht, hscan]

/-- Claim C9 amended witness: a run with non-positive coverage creates the
missing output directory and exits 1. -/
theorem c9_validation_order_witness :
    downsamplePairedReads envMkdir ⟨0, "prepend", "in", none, "out", 4⟩
      = (if envMkdir.isdir "out" then [] else [Action.makedirs "out"], .exited 1) :=
  (c9_validation_order envMkdir ⟨0, "prepend", "in", none, "out", 4⟩).2.2.1
    (by decide) (by decide) (by decide)

end Tsp
